import Mathlib

/-!
Shallow embedding of the observer/aggregation core of `code_instruments`
(`src/python3/code_instruments/task.py`): the `Task` lifecycle state machine,
the `Tally` aggregator, and the consumption-counter accumulation protocol.

Python values relevant to the claims are modelled as follows: counter values
(`int|float` used additively) as `Int`; Python `None`-or-value results as
`Option Int`; exceptions as `Except`; `dict` as an insertion-ordered
association list with unique keys (`dictSet` updates in place); `set` as a
duplicate-free list.
-/

namespace CodeInstruments

/-- The `Status` enum from task.py: Unknown = 0, Run = 1, Fail = 2, Succeed = 3. -/
inductive Status where
  | Unknown
  | Run
  | Fail
  | Succeed
deriving DecidableEq, Repr

/-- A `consumed` mapping: Python `dict[str, int|float]`, insertion ordered. -/
abbrev ConsumedMap := List (String × Int)

/-- Python `d.get(key)`: first (and, for dicts built by `dictSet`, only) match. -/
def dictGet : ConsumedMap → String → Option Int
  | [], _ => none
  | (k, v) :: rest, key => if k = key then some v else dictGet rest key

/-- Python `d[key] = v`: replace the existing entry in place, else append. -/
def dictSet : ConsumedMap → String → Int → ConsumedMap
  | [], key, v => [(key, v)]
  | (k, w) :: rest, key, v =>
      if k = key then (key, v) :: rest else (k, w) :: dictSet rest key v

/-- Python `(d.get(key) or 0)`: the stored value when present and nonzero,
else `0` (numerically equal to `get`-with-default-0 for numbers). -/
def getOrZero (d : ConsumedMap) (key : String) : Int :=
  (dictGet d key).getD 0

/-- The sum of all values stored under `key` (a dict built by `dictSet` has at
most one, in which case this equals `getOrZero`). -/
def sumAt (d : ConsumedMap) (key : String) : Int :=
  (d.map (fun kv => if kv.1 = key then kv.2 else 0)).sum

/-- One update `self.consumed[key] = (self.consumed.get(key) or 0) + delta`. -/
def addAt (d : ConsumedMap) (key : String) (delta : Int) : ConsumedMap :=
  dictSet d key (getOrZero d key + delta)

/-- The merge loop of `Tally.on_success` / `Tally.on_failure` (task.py:105-106):
`for key in task.consumed: self.consumed[key] = (self.consumed.get(key) or 0)
+ task.consumed[key]`. -/
def mergeConsumed (acc task : ConsumedMap) : ConsumedMap :=
  task.foldl (fun a kv => addAt a kv.1 kv.2) acc

theorem dictGet_dictSet (d : ConsumedMap) (k k' : String) (v : Int) :
    dictGet (dictSet d k v) k' = if k = k' then some v else dictGet d k' := by
  induction d with
  | nil => simp [dictSet, dictGet]
  | cons kv rest ih =>
      obtain ⟨k0, v0⟩ := kv
      by_cases h0 : k0 = k
      · subst h0
        by_cases h1 : k0 = k' <;> simp [dictSet, dictGet, h1]
      · by_cases h1 : k0 = k'
        · subst h1
          have : ¬ k = k0 := fun h => h0 h.symm
          simp [dictSet, dictGet, h0, this]
        · simp [dictSet, dictGet, h0, h1, ih]

theorem getOrZero_addAt (d : ConsumedMap) (k k' : String) (delta : Int) :
    getOrZero (addAt d k delta) k' =
      getOrZero d k' + (if k = k' then delta else 0) := by
  unfold getOrZero addAt
  rw [dictGet_dictSet]
  by_cases h : k = k' <;> simp [h, getOrZero]

theorem getOrZero_mergeConsumed (acc task : ConsumedMap) (key : String) :
    getOrZero (mergeConsumed acc task) key = getOrZero acc key + sumAt task key := by
  induction task generalizing acc with
  | nil => simp [mergeConsumed, sumAt]
  | cons kv rest ih =>
      obtain ⟨k, v⟩ := kv
      show getOrZero (mergeConsumed (addAt acc k v) rest) key = _
      rw [ih, getOrZero_addAt]
      simp only [sumAt, List.map_cons, List.sum_cons]
      by_cases h : k = key
      · simp only [h, if_pos rfl, if_true]
        ring
      · simp only [h, if_false, if_neg h]
        ring

/-- For a dict with no duplicate keys (every dict Python builds), `sumAt`
coincides with `getOrZero`. -/
theorem sumAt_eq_getOrZero (d : ConsumedMap) (key : String)
    (hnd : (d.map Prod.fst).Nodup) : sumAt d key = getOrZero d key := by
  induction d with
  | nil => simp [sumAt, getOrZero, dictGet]
  | cons kv rest ih =>
      obtain ⟨k, v⟩ := kv
      simp only [List.map_cons, List.nodup_cons] at hnd
      by_cases h : k = key
      · subst h
        have hz : sumAt rest k = 0 := by
          unfold sumAt
          apply List.sum_eq_zero
          intro x hx
          simp only [List.mem_map] at hx
          obtain ⟨⟨k1, v1⟩, hmem, hval⟩ := hx
          have : k1 ≠ k := by
            intro he
            exact hnd.1 (by
              subst he
              exact List.mem_map.mpr ⟨(k1, v1), hmem, rfl⟩)
          simp only [this, if_false] at hval
          omega
        simp [sumAt, getOrZero, dictGet] at *
        omega
      · simp only [sumAt, List.map_cons, List.sum_cons, if_neg h]
        rw [show (0 : Int) + _ = sumAt rest key from by simp [sumAt]]
        rw [ih hnd.2]
        simp [getOrZero, dictGet, h]

/-!
### Task lifecycle state machine (task.py:164-309)

A `Task`'s observable behaviour for the wrapper claims: its status, its
`consumed` counters, its stored `return_value` / `exception`, and the
ordered trace of listener notifications it emits (plus, for the sequence
wrapper, the items it forwards downstream, recorded as `.forward` entries
so that the yield/forward interleaving is visible).
-/

/-- One entry in a Task's observable trace: a listener notification emitted
by `on_start` / `on_yield` / `on_success` / `on_failure`, or an item
forwarded downstream by the generator wrapper (`yield item`). -/
inductive TEvent where
  | start
  | yielded (v : Int)
  | forward (v : Int)
  | success (v : Option Int)
  | failure (e : Int)
deriving DecidableEq, Repr

structure Task where
  status : Status
  consumed : ConsumedMap
  return_value : Option Int
  exception : Option Int
  events : List TEvent
deriving DecidableEq, Repr

/-- A freshly constructed Task (task.py:186-211): status Unknown, empty
counters, no result recorded, nothing emitted yet. -/
def Task.init : Task :=
  { status := .Unknown, consumed := [], return_value := none,
    exception := none, events := [] }

/-- Method `Task.on_start` (task.py:220-233): status → Run, increment
`outcome.hasStarted`, notify listeners' `on_start`. -/
def Task.on_start (t : Task) : Task :=
  { t with status := .Run,
           consumed := addAt t.consumed "outcome.hasStarted" 1,
           events := t.events ++ [.start] }

/-- Method `Task.on_yield` (task.py:235-241): status unchanged, notify listeners'
`on_yield`. -/
def Task.on_yield (t : Task) (v : Int) : Task :=
  { t with events := t.events ++ [.yielded v] }

/-- Method `Task.on_success` (task.py:243-255): status → Succeed, store the return
value, increment `outcome.hasSucceeded`, notify listeners' `on_success`. -/
def Task.on_success (t : Task) (rv : Option Int) : Task :=
  { t with status := .Succeed, return_value := rv,
           consumed := addAt t.consumed "outcome.hasSucceeded" 1,
           events := t.events ++ [.success rv] }

/-- Method `Task.on_failure` (task.py:257-271): status → Fail, store the exception,
increment `outcome.hasFailed`, notify listeners' `on_failure`. -/
def Task.on_failure (t : Task) (e : Int) : Task :=
  { t with status := .Fail, exception := some e,
           consumed := addAt t.consumed "outcome.hasFailed" 1,
           events := t.events ++ [.failure e] }

/-- Method `Task.returns` (task.py:286-296), the single-result wrapper: the
zero-argument callable is modelled by its outcome `call` (normal return of a
Python value, or a raised error). Returns the finished Task and what the
wrapper itself delivers to the caller (return or re-raise). -/
def Task.returns (t : Task) (call : Except Int (Option Int)) :
    Task × Except Int (Option Int) :=
  let t1 := t.on_start
  match call with
  | .ok v => (t1.on_success v, .ok v)
  | .error e => (t1.on_failure e, .error e)

/-- The body of the `for item in callable(): self.on_yield(item); yield item`
loop of `Task.generates` (task.py:303-305): for each produced item, first
`on_yield(item)`, then forward it downstream. Returns the finished Task and
the items the external consumer received, in order. -/
def generatesLoop : Task → List Int → Task × List Int
  | t, [] => (t, [])
  | t, item :: rest =>
      let t1 := { t.on_yield item with
                    events := (t.on_yield item).events ++ [.forward item] }
      let out := generatesLoop t1 rest
      (out.1, item :: out.2)

/-- Method `Task.generates` (task.py:298-309), the sequence wrapper, in the no-error
case: the underlying callable's production is modelled by the finite list
`items` it yields. `on_start` before consuming, the yield/forward loop, then
`on_success(None)` once the sequence is exhausted. -/
def Task.generates (t : Task) (items : List Int) : Task × List Int :=
  let out := generatesLoop t.on_start items
  (out.1.on_success none, out.2)

theorem generatesLoop_spec (t : Task) (items : List Int) :
    generatesLoop t items =
      ({ t with events := t.events ++
          items.flatMap (fun i => [.yielded i, .forward i]) }, items) := by
  induction items generalizing t with
  | nil => simp [generatesLoop]
  | cons i rest ih =>
      simp [generatesLoop, Task.on_yield, ih]

/-!
### Tally aggregator (task.py:63-126)

Tally lifecycle methods are sequences of primitive statements (listener
notifications and state mutations) executed in the order the Python body
writes them. A listener notification records a snapshot of the Tally's
bookkeeping state (`pending`, `consumed`) at the moment the listener is
invoked, so ordering claims are directly observable. Python's `set.remove`
raises `KeyError` on a missing element; an exception aborts the rest of the
body leaving the state as it was at that point, and propagates.

Tasks are identified by their opaque id (a `Nat`); timestamps are `Rat`
seconds so that elapsed time and rate division are exact.
-/

structure Tally where
  scopes : List String
  start_time : Rat
  consumed : ConsumedMap
  pending : List Nat
  listeners : List Nat
deriving DecidableEq, Repr

/-- Python `set.add`: no duplicates. -/
def setAdd (s : List Nat) (x : Nat) : List Nat :=
  if x ∈ s then s else s ++ [x]

/-- What a listener observes when it is notified: which listener, and the
notifying Tally's bookkeeping state at that moment. -/
structure Obs where
  listener : Nat
  pending : List Nat
  consumed : ConsumedMap
deriving DecidableEq, Repr

/-- A primitive statement of a Tally method body. -/
inductive Stmt where
  | notify (l : Nat)
  | addPending (id : Nat)
  | removePending (id : Nat)
  | mergeC (c : ConsumedMap)
deriving DecidableEq, Repr

/-- Execute one statement: the resulting state (or the raised exception, with
the state unchanged) and the notifications it emitted. -/
def execStmt (t : Tally) : Stmt → Except String Tally × List Obs
  | .notify l => (.ok t, [⟨l, t.pending, t.consumed⟩])
  | .addPending id => (.ok { t with pending := setAdd t.pending id }, [])
  | .removePending id =>
      if id ∈ t.pending then
        (.ok { t with pending := t.pending.filter (· ≠ id) }, [])
      else
        (.error "KeyError", [])
  | .mergeC c => (.ok { t with consumed := mergeConsumed t.consumed c }, [])

/-- Run a method body statement by statement. An exception stops execution,
leaves the state as it stood, and propagates to the caller. -/
def runStmts : Tally → List Stmt → Except String Unit × Tally × List Obs
  | t, [] => (.ok (), t, [])
  | t, s :: rest =>
      match execStmt t s with
      | (.ok t1, obs) =>
          let out := runStmts t1 rest
          (out.1, out.2.1, obs ++ out.2.2)
      | (.error e, obs) => (.error e, t, obs)

/-- Body of `Tally.on_start` (task.py:90-94): notify every listener, then add
the task to `pending`. -/
def onStartBody (t : Tally) (id : Nat) : List Stmt :=
  t.listeners.map .notify ++ [.addPending id]

/-- Body of `Tally.on_success` (task.py:101-107): notify every listener, then
`self.pending.remove(task)`, then merge the task's `consumed`. -/
def onSuccessBody (t : Tally) (id : Nat) (c : ConsumedMap) : List Stmt :=
  t.listeners.map .notify ++ [.removePending id, .mergeC c]

/-- Body of `Tally.on_failure` (task.py:109-115): identical shape to
`on_success`. -/
def onFailureBody (t : Tally) (id : Nat) (c : ConsumedMap) : List Stmt :=
  t.listeners.map .notify ++ [.removePending id, .mergeC c]

/-- Method `Tally.on_start` applied to a task with id `id`. -/
def Tally.on_start (t : Tally) (id : Nat) : Except String Unit × Tally × List Obs :=
  runStmts t (onStartBody t id)

/-- Method `Tally.on_success` applied to a task with id `id` and counters `c`. -/
def Tally.on_success (t : Tally) (id : Nat) (c : ConsumedMap) :
    Except String Unit × Tally × List Obs :=
  runStmts t (onSuccessBody t id c)

/-- Method `Tally.on_failure` applied to a task with id `id` and counters `c`. -/
def Tally.on_failure (t : Tally) (id : Nat) (c : ConsumedMap) :
    Except String Unit × Tally × List Obs :=
  runStmts t (onFailureBody t id c)

/-- Method `Tally.reset` (task.py:84-88): clear `consumed` and `pending`, restart
`start_time` at the current time; scopes and listeners untouched. -/
def Tally.reset (t : Tally) (now : Rat) : Tally :=
  { t with consumed := [], pending := [], start_time := now }

/-- Python float division: raises `ZeroDivisionError` on a zero divisor. -/
def pyDiv (a b : Rat) : Except String Rat :=
  if b = 0 then .error "ZeroDivisionError" else .ok (a / b)

/-- The join `'.'.join(scopes + [key])` (task.py:121). -/
def dotJoin (parts : List String) : String :=
  String.intercalate "." parts

/-- Method `Tally.to_json` (task.py:117-126): elapsed seconds since `start_time`,
then for each accumulated key the tag, the count, and `count / seconds`. -/
def Tally.to_json (t : Tally) (now : Rat) :
    Except String (List (String × Int × Rat)) :=
  let seconds := now - t.start_time
  t.consumed.mapM (fun kv => do
    let ps ← pyDiv kv.2 seconds
    pure (dotJoin (t.scopes ++ [kv.1]), kv.2, ps))

/-- Running the notification prefix of a body emits one observation per
listener, each a snapshot of the entry state, and does not change state. -/
theorem runStmts_notifies (t : Tally) (ls : List Nat) (rest : List Stmt) :
    runStmts t (ls.map .notify ++ rest) =
      let out := runStmts t rest
      (out.1, out.2.1, ls.map (fun l => ⟨l, t.pending, t.consumed⟩) ++ out.2.2) := by
  induction ls with
  | nil => simp
  | cons l ls ih => simp [runStmts, execStmt, ih]

/-!
### Claims C1, C2, C8: the execution wrappers
-/

/-- C1: the single-result wrapper `Task.returns` delivers the callable's
outcome unchanged — on normal return of `v` it notifies `on_success v` (after
the single `on_start`, with no failure notification) and returns `v` to the
caller; on a raised error `e` it notifies `on_failure e` (after the single
`on_start`, with no success notification) and re-raises the very same error
value `e`, never swallowing it. -/
theorem returns_observes_and_preserves_outcome (t : Task) (v : Option Int) (e : Int) :
    ((t.returns (.ok v)).2 = .ok v ∧
      (t.returns (.ok v)).1.events = t.events ++ [.start, .success v]) ∧
    ((t.returns (.error e)).2 = .error e ∧
      (t.returns (.error e)).1.events = t.events ++ [.start, .failure e]) := by
  refine ⟨⟨rfl, ?_⟩, rfl, ?_⟩ <;>
    simp [Task.returns, Task.on_start, Task.on_success, Task.on_failure]

/-- C2: the sequence wrapper `Task.generates`, on an underlying sequence of
`N` items with no error, emits exactly one `on_start` before consuming, then
for each item one `on_yield` immediately before forwarding that item
downstream, then exactly one terminal `on_success none`; the external
consumer receives the same `N` items in the same order. -/
theorem generates_trace_and_forwarding (t : Task) (items : List Int) :
    (t.generates items).2 = items ∧
    (t.generates items).1.events =
      t.events ++ [.start] ++
        items.flatMap (fun i => [.yielded i, .forward i]) ++ [.success none] := by
  constructor
  · simp [Task.generates, generatesLoop_spec]
  · simp [Task.generates, generatesLoop_spec, Task.on_start, Task.on_success]

/-- C8: driving a fresh Task once through the single-result wrapper leaves
`consumed` with `outcome.hasStarted = 1` plus `outcome.hasSucceeded = 1` and
no `outcome.hasFailed` entry on success, or `outcome.hasFailed = 1` and no
`outcome.hasSucceeded` entry on failure — exactly one increment per
transition taken. -/
theorem returns_outcome_counters (v : Option Int) (e : Int) :
    (dictGet (Task.init.returns (.ok v)).1.consumed "outcome.hasStarted" = some 1 ∧
      dictGet (Task.init.returns (.ok v)).1.consumed "outcome.hasSucceeded" = some 1 ∧
      dictGet (Task.init.returns (.ok v)).1.consumed "outcome.hasFailed" = none) ∧
    (dictGet (Task.init.returns (.error e)).1.consumed "outcome.hasStarted" = some 1 ∧
      dictGet (Task.init.returns (.error e)).1.consumed "outcome.hasFailed" = some 1 ∧
      dictGet (Task.init.returns (.error e)).1.consumed "outcome.hasSucceeded" = none) := by
  refine ⟨⟨?_, ?_, ?_⟩, ?_, ?_, ?_⟩ <;> rfl

/-!
### Claims C6, C7, C10: Tally method bodies
-/

/-- C6: every Tally lifecycle method notifies all registered listeners, in
registration order, before mutating the Tally's own state: each notification
emitted by `on_start`, `on_success` and `on_failure` carries a snapshot of
`pending` and `consumed` exactly as they were on entry, before the task is
added to / removed from `pending` or its counters merged. -/
theorem tally_forwards_before_mutating (t : Tally) (id : Nat) (c : ConsumedMap) :
    (t.on_start id).2.2 = t.listeners.map (fun l => ⟨l, t.pending, t.consumed⟩) ∧
    (t.on_success id c).2.2 = t.listeners.map (fun l => ⟨l, t.pending, t.consumed⟩) ∧
    (t.on_failure id c).2.2 = t.listeners.map (fun l => ⟨l, t.pending, t.consumed⟩) := by
  by_cases h : id ∈ t.pending <;>
    refine ⟨?_, ?_, ?_⟩ <;>
      simp [Tally.on_start, Tally.on_success, Tally.on_failure, onStartBody,
        onSuccessBody, onFailureBody, runStmts_notifies, runStmts, execStmt, h]

/-- C7: calling `Tally.on_success` or `Tally.on_failure` with a task that is
not a member of `pending` raises an error (Python `set.remove` raises
`KeyError`) rather than silently updating counters. -/
theorem tally_terminal_without_start_raises (t : Tally) (id : Nat) (c : ConsumedMap)
    (h : id ∉ t.pending) :
    (t.on_success id c).1 = .error "KeyError" ∧
    (t.on_failure id c).1 = .error "KeyError" := by
  constructor <;>
    simp [Tally.on_success, Tally.on_failure, onSuccessBody, onFailureBody,
      runStmts_notifies, runStmts, execStmt, h]

/-- Closed witness for `tally_terminal_without_start_raises`: a Tally with one
accumulated counter and empty `pending`, hit with a terminal notification for
task id 7. -/
theorem tally_terminal_without_start_raises_witness :
    (7 : Nat) ∉ (Tally.mk ["module"] 0 [("k", 2)] [] []).pending ∧
      ((Tally.mk ["module"] 0 [("k", 2)] [] []).on_success 7 [("k", 1)]).1 =
        .error "KeyError" ∧
      ((Tally.mk ["module"] 0 [("k", 2)] [] []).on_failure 7 [("k", 1)]).1 =
        .error "KeyError" :=
  ⟨by decide,
    tally_terminal_without_start_raises (Tally.mk ["module"] 0 [("k", 2)] [] [])
      7 [("k", 1)] (by decide)⟩

/-- C10: when `Tally.on_success` / `Tally.on_failure` fails because the task
is not in `pending`, the Tally's `consumed` mapping and `pending` set are left
exactly as they were before the call: the raising removal precedes any
counter merge, so a protocol-violation error never partially updates the
totals. -/
theorem tally_terminal_without_start_no_mutation (t : Tally) (id : Nat) (c : ConsumedMap)
    (h : id ∉ t.pending) :
    ((t.on_success id c).2.1.consumed = t.consumed ∧
      (t.on_success id c).2.1.pending = t.pending) ∧
    ((t.on_failure id c).2.1.consumed = t.consumed ∧
      (t.on_failure id c).2.1.pending = t.pending) := by
  refine ⟨⟨?_, ?_⟩, ?_, ?_⟩ <;>
    simp [Tally.on_success, Tally.on_failure, onSuccessBody, onFailureBody,
      runStmts_notifies, runStmts, execStmt, h]

/-- Closed witness for `tally_terminal_without_start_no_mutation`: id 3 was
never started on this Tally; the failed terminal calls leave `consumed` and
`pending` untouched. -/
theorem tally_terminal_without_start_no_mutation_witness :
    (3 : Nat) ∉ (Tally.mk [] 0 [("n", 5)] [9] [4]).pending ∧
      (((Tally.mk [] 0 [("n", 5)] [9] [4]).on_success 3 [("n", 1)]).2.1.consumed =
          [("n", 5)] ∧
        ((Tally.mk [] 0 [("n", 5)] [9] [4]).on_success 3 [("n", 1)]).2.1.pending = [9]) ∧
      (((Tally.mk [] 0 [("n", 5)] [9] [4]).on_failure 3 [("n", 1)]).2.1.consumed =
          [("n", 5)] ∧
        ((Tally.mk [] 0 [("n", 5)] [9] [4]).on_failure 3 [("n", 1)]).2.1.pending = [9]) :=
  ⟨by decide,
    tally_terminal_without_start_no_mutation (Tally.mk [] 0 [("n", 5)] [9] [4])
      3 [("n", 1)] (by decide)⟩

/-!
### Claims C9, C5: reset and rate export
-/

/-- C9: `Tally.reset` empties `consumed`, empties `pending`, and sets
`start_time` to the current time, leaving `listeners` and `scopes` exactly as
they were; any subsequent `to_json` computes its per-second rates against the
new `start_time` (elapsed = export time minus reset time). -/
theorem tally_reset_frame (t : Tally) (now now2 : Rat) (c : ConsumedMap) :
    (t.reset now).consumed = [] ∧
    (t.reset now).pending = [] ∧
    (t.reset now).start_time = now ∧
    (t.reset now).listeners = t.listeners ∧
    (t.reset now).scopes = t.scopes ∧
    Tally.to_json { t.reset now with consumed := c } now2 =
      c.mapM (fun kv => do
        let ps ← pyDiv kv.2 (now2 - now)
        pure (dotJoin (t.scopes ++ [kv.1]), kv.2, ps)) := by
  refine ⟨rfl, rfl, rfl, rfl, rfl, ?_⟩
  simp [Tally.reset, Tally.to_json]

/-- C5 (code behaviour at the failing input): a Tally with one accumulated
counter exported at zero elapsed time — `to_json` raises `ZeroDivisionError`
instead of yielding a defined sentinel value. -/
theorem to_json_zero_elapsed_raises :
    (Tally.mk ["module"] 5 [("outcome.hasStarted", 1)] [] []).to_json 5 =
      .error "ZeroDivisionError" := by
  simp [Tally.to_json, pyDiv]
  rfl

/-!
### Claim C3: accumulation across many tasks
-/

/-- Membership `x ∈ setAdd s x`. -/
theorem mem_setAdd (s : List Nat) (x j : Nat) :
    j ∈ setAdd s x ↔ j ∈ s ∨ j = x := by
  unfold setAdd
  split
  · constructor
    · exact Or.inl
    · rintro (h | rfl) <;> assumption
  · simp

/-- The state left by `Tally.on_start`: the task id added to `pending`. -/
theorem on_start_state (t : Tally) (id : Nat) :
    (t.on_start id).2.1 = { t with pending := setAdd t.pending id } := by
  simp [Tally.on_start, onStartBody, runStmts_notifies, runStmts, execStmt]

/-- The state left by a successful `Tally.on_success`: the task id removed
from `pending` and its counters merged. -/
theorem on_success_state (t : Tally) (id : Nat) (c : ConsumedMap)
    (h : id ∈ t.pending) :
    (t.on_success id c).2.1 =
      { t with pending := t.pending.filter (· ≠ id),
               consumed := mergeConsumed t.consumed c } := by
  simp [Tally.on_success, onSuccessBody, runStmts_notifies, runStmts, execStmt, h]

/-- Drive one task (given by its id and its `consumed` at terminal time)
through `on_start` and a terminal `on_success` on a listening Tally. -/
def observeTerminal (t : Tally) (task : Nat × ConsumedMap) : Tally :=
  ((t.on_start task.1).2.1.on_success task.1 task.2).2.1

/-- Drive a whole list of tasks through start + terminal, in order. -/
def observeAll (t : Tally) (tasks : List (Nat × ConsumedMap)) : Tally :=
  tasks.foldl observeTerminal t

theorem observeTerminal_consumed (t : Tally) (task : Nat × ConsumedMap) :
    (observeTerminal t task).consumed = mergeConsumed t.consumed task.2 := by
  unfold observeTerminal
  rw [on_start_state, on_success_state]
  · exact (mem_setAdd t.pending task.1 task.1).mpr (Or.inr rfl)

theorem observeAll_consumed (t : Tally) (tasks : List (Nat × ConsumedMap)) :
    (observeAll t tasks).consumed =
      (tasks.map Prod.snd).foldl mergeConsumed t.consumed := by
  induction tasks generalizing t with
  | nil => rfl
  | cons task rest ih =>
      show (observeAll (observeTerminal t task) rest).consumed = _
      rw [ih, List.map_cons, List.foldl_cons, observeTerminal_consumed]

theorem getOrZero_foldl_merge (init : ConsumedMap) (cs : List ConsumedMap)
    (key : String) :
    getOrZero (cs.foldl mergeConsumed init) key =
      getOrZero init key + (cs.map (fun c => sumAt c key)).sum := by
  induction cs generalizing init with
  | nil => simp
  | cons c rest ih =>
      rw [List.foldl_cons, ih, getOrZero_mergeConsumed, List.map_cons,
        List.sum_cons]
      ring

/-- C3: after driving tasks T1..Tn each through start and a terminal
transition while the Tally listens, the Tally's `consumed` assigns to each
key its previous value plus the sum over the tasks of that task's own
`consumed` value for the key (missing keys counting as zero, each task's
dict having the unique keys Python dicts guarantee); and the total is the
same for any order (permutation) in which the tasks reach their terminal
transitions. -/
theorem tally_accumulates_sum_order_independent (t : Tally)
    (tasks tasks' : List (Nat × ConsumedMap)) (key : String)
    (hnd : ∀ p ∈ tasks, (p.2.map Prod.fst).Nodup)
    (hperm : tasks.Perm tasks') :
    getOrZero (observeAll t tasks).consumed key =
      getOrZero t.consumed key +
        (tasks.map (fun p => getOrZero p.2 key)).sum ∧
    getOrZero (observeAll t tasks').consumed key =
      getOrZero (observeAll t tasks).consumed key := by
  have hsum : ∀ (l : List (Nat × ConsumedMap)),
      getOrZero (observeAll t l).consumed key =
        getOrZero t.consumed key + (l.map (fun p => sumAt p.2 key)).sum := by
    intro l
    rw [observeAll_consumed, getOrZero_foldl_merge, List.map_map]
    rfl
  constructor
  · rw [hsum tasks]
    congr 1
    apply congrArg
    exact List.map_congr_left fun p hp => sumAt_eq_getOrZero p.2 key (hnd p hp)
  · rw [hsum tasks, hsum tasks']
    congr 1
    exact (hperm.map (fun p => sumAt p.2 key)).sum_eq.symm

/-- Closed witness for `tally_accumulates_sum_order_independent`: two tasks
with overlapping keys observed in both orders. -/
theorem tally_accumulates_witness :
    (∀ p ∈ [((1 : Nat), [("a", (2 : Int))]), (2, [("a", 3), ("b", 1)])],
        (p.2.map Prod.fst).Nodup) ∧
    ([((1 : Nat), [("a", (2 : Int))]), (2, [("a", 3), ("b", 1)])].Perm
        [(2, [("a", 3), ("b", 1)]), (1, [("a", 2)])]) ∧
    (getOrZero (observeAll (Tally.mk [] 0 [] [] [])
          [((1 : Nat), [("a", (2 : Int))]), (2, [("a", 3), ("b", 1)])]).consumed "a" =
        getOrZero (Tally.mk [] 0 [] [] []).consumed "a" +
          ([((1 : Nat), [("a", (2 : Int))]), (2, [("a", 3), ("b", 1)])].map
            (fun p => getOrZero p.2 "a")).sum ∧
      getOrZero (observeAll (Tally.mk [] 0 [] [] [])
          [(2, [("a", 3), ("b", 1)]), (1, [("a", 2)])]).consumed "a" =
        getOrZero (observeAll (Tally.mk [] 0 [] [] [])
          [((1 : Nat), [("a", (2 : Int))]), (2, [("a", 3), ("b", 1)])]).consumed "a") :=
  ⟨by decide, List.Perm.swap _ _ _,
    tally_accumulates_sum_order_independent (Tally.mk [] 0 [] [] []) _ _ "a"
      (by decide) (List.Perm.swap _ _ _)⟩

/-!
### Claim C4: the notification protocol as a transition system

A system of tasks (identified by `Nat` ids, with a status each) and tallies.
Each tally listens to a fixed set of task ids. A `start` step sets the task's
status to `Run` and then fires `Tally.on_start` on every listening tally
(adding the task to `pending`); a terminal step sets the status to `Succeed`
or `Fail` and then fires the terminal notification on every listening tally
(removing the task from `pending` and merging its `consumed`, recorded in
`merged`). The protocol preconditions of the claim are the step guards:
`on_start` only from `Unknown` (so it precedes the tally notifications) and
at most one terminal transition, only from `Run`. `tc i` is task `i`'s
`consumed` mapping at terminal time. -/

def Status.isTerminal : Status → Bool
  | .Succeed => true
  | .Fail => true
  | _ => false

structure SysTally where
  listens : Nat → Bool
  pending : List Nat
  merged : List Nat
  consumed : ConsumedMap

structure Sys where
  status : Nat → Status
  tallies : List SysTally

/-- Effect of `Tally.on_start(task)` on one tally during task `i`'s start. -/
def startTally (i : Nat) (tl : SysTally) : SysTally :=
  if tl.listens i then { tl with pending := setAdd tl.pending i } else tl

/-- Effect of `Tally.on_success`/`on_failure` on one tally during task `i`'s
terminal transition: remove from `pending`, merge the task's counters (the
merge is recorded in `merged`). -/
def finishTally (tc : Nat → ConsumedMap) (i : Nat) (tl : SysTally) : SysTally :=
  if tl.listens i then
    { tl with pending := tl.pending.filter (· ≠ i),
              merged := tl.merged ++ [i],
              consumed := mergeConsumed tl.consumed (tc i) }
  else tl

inductive Step (tc : Nat → ConsumedMap) : Sys → Sys → Prop
  | start (s : Sys) (i : Nat) (h : s.status i = .Unknown) :
      Step tc s ⟨fun j => if j = i then .Run else s.status j,
                 s.tallies.map (startTally i)⟩
  | succeed (s : Sys) (i : Nat) (h : s.status i = .Run) :
      Step tc s ⟨fun j => if j = i then .Succeed else s.status j,
                 s.tallies.map (finishTally tc i)⟩
  | fail (s : Sys) (i : Nat) (h : s.status i = .Run) :
      Step tc s ⟨fun j => if j = i then .Fail else s.status j,
                 s.tallies.map (finishTally tc i)⟩

/-- Initial system: no task started, every tally freshly constructed. -/
def Sys.init (ls : List (Nat → Bool)) : Sys :=
  ⟨fun _ => .Unknown, ls.map (fun f => ⟨f, [], [], []⟩)⟩

def Reachable (tc : Nat → ConsumedMap) (ls : List (Nat → Bool)) : Sys → Prop :=
  Relation.ReflTransGen (Step tc) (Sys.init ls)

/-- The inductive invariant of one tally: `pending` holds exactly the
listening tasks currently in `Run`; `merged` holds exactly one merge per
listening task that reached a terminal status; `consumed` is the fold of the
merges performed. -/
def TallyInv (tc : Nat → ConsumedMap) (st : Nat → Status) (tl : SysTally) : Prop :=
  (∀ i, i ∈ tl.pending ↔ (tl.listens i = true ∧ st i = .Run)) ∧
  (∀ i, tl.merged.count i =
    if tl.listens i = true ∧ (st i).isTerminal = true then 1 else 0) ∧
  tl.consumed = tl.merged.foldl (fun acc j => mergeConsumed acc (tc j)) []

theorem TallyInv_start (tc : Nat → ConsumedMap) (st : Nat → Status) (i : Nat)
    (h : st i = .Unknown) (tl : SysTally) (hinv : TallyInv tc st tl) :
    TallyInv tc (fun j => if j = i then .Run else st j) (startTally i tl) := by
  obtain ⟨hp, hm, hc⟩ := hinv
  unfold startTally
  by_cases hl : tl.listens i = true
  · rw [if_pos hl]
    refine ⟨?_, ?_, hc⟩
    · intro j
      rw [mem_setAdd]
      by_cases hj : j = i
      · subst hj
        simp [hl]
      · simp only [hj, if_false, or_false, hp j]
    · intro j
      by_cases hj : j = i
      · subst hj
        rw [hm j]
        simp [h, Status.isTerminal]
      · rw [hm j]
        simp [hj]
  · rw [if_neg hl]
    refine ⟨?_, ?_, hc⟩
    · intro j
      by_cases hj : j = i
      · subst hj
        rw [hp j]
        simp [hl]
      · rw [hp j]
        simp [hj]
    · intro j
      by_cases hj : j = i
      · subst hj
        rw [hm j]
        simp only [if_pos rfl]
        simp [hl, h, Status.isTerminal]
      · rw [hm j]
        simp [hj]

theorem TallyInv_finish (tc : Nat → ConsumedMap) (st : Nat → Status) (i : Nat)
    (T : Status) (hT : T.isTerminal = true) (h : st i = .Run) (tl : SysTally)
    (hinv : TallyInv tc st tl) :
    TallyInv tc (fun j => if j = i then T else st j) (finishTally tc i tl) := by
  obtain ⟨hp, hm, hc⟩ := hinv
  have hTrun : T ≠ .Run := by
    intro he
    subst he
    simp [Status.isTerminal] at hT
  unfold finishTally
  by_cases hl : tl.listens i = true
  · rw [if_pos hl]
    refine ⟨?_, ?_, ?_⟩
    · intro j
      simp only [List.mem_filter]
      by_cases hj : j = i
      · subst hj
        simp [hTrun]
      · simp only [hj, if_false]
        rw [hp j]
        simp [hj]
    · intro j
      rw [List.count_append]
      by_cases hj : j = i
      · subst hj
        rw [hm j]
        have h1 : (st j).isTerminal = false := by rw [h]; rfl
        simp [h1, hT, hl]
      · rw [hm j]
        have : List.count j [i] = 0 := by
          simp [List.count_singleton]
          omega
        rw [this]
        simp [hj]
    · rw [List.foldl_append, ← hc]
      rfl
  · rw [if_neg hl]
    refine ⟨?_, ?_, hc⟩
    · intro j
      by_cases hj : j = i
      · subst hj
        rw [hp j]
        simp [hl]
      · rw [hp j]
        simp [hj]
    · intro j
      by_cases hj : j = i
      · subst hj
        rw [hm j]
        simp [hl]
      · rw [hm j]
        simp [hj]

def Inv (tc : Nat → ConsumedMap) (s : Sys) : Prop :=
  ∀ tl ∈ s.tallies, TallyInv tc s.status tl

theorem Inv_init (tc : Nat → ConsumedMap) (ls : List (Nat → Bool)) :
    Inv tc (Sys.init ls) := by
  intro tl htl
  simp only [Sys.init, List.mem_map] at htl
  obtain ⟨f, _, rfl⟩ := htl
  refine ⟨?_, ?_, rfl⟩
  · intro i
    simp [Sys.init, Status.isTerminal]
  · intro i
    simp [Sys.init, Status.isTerminal]

theorem Inv_step (tc : Nat → ConsumedMap) (s s' : Sys) (hstep : Step tc s s')
    (hinv : Inv tc s) : Inv tc s' := by
  cases hstep with
  | start i h =>
      intro tl htl
      simp only [List.mem_map] at htl
      obtain ⟨tl0, htl0, rfl⟩ := htl
      exact TallyInv_start tc s.status i h tl0 (hinv tl0 htl0)
  | succeed i h =>
      intro tl htl
      simp only [List.mem_map] at htl
      obtain ⟨tl0, htl0, rfl⟩ := htl
      exact TallyInv_finish tc s.status i .Succeed rfl h tl0 (hinv tl0 htl0)
  | fail i h =>
      intro tl htl
      simp only [List.mem_map] at htl
      obtain ⟨tl0, htl0, rfl⟩ := htl
      exact TallyInv_finish tc s.status i .Fail rfl h tl0 (hinv tl0 htl0)

theorem Inv_reachable (tc : Nat → ConsumedMap) (ls : List (Nat → Bool))
    (s : Sys) (h : Reachable tc ls s) : Inv tc s := by
  induction h with
  | refl => exact Inv_init tc ls
  | tail _ hstep ih => exact Inv_step tc _ _ hstep ih

/-- C4: in every state reachable by the notification protocol (a task's
status is set to `Run` before its start notification reaches the tallies,
and each task takes at most one terminal transition), every task in any
tally's `pending` set has status `Run`; and once a task is terminal, every
listening tally no longer holds it in `pending`, has merged it exactly once,
and its `consumed` totals are exactly the fold of the merges performed. -/
theorem pending_run_and_terminal_merged_once (tc : Nat → ConsumedMap)
    (ls : List (Nat → Bool)) (s : Sys) (h : Reachable tc ls s) :
    ∀ tl ∈ s.tallies,
      (∀ i ∈ tl.pending, s.status i = .Run) ∧
      (∀ i, (s.status i).isTerminal = true → tl.listens i = true →
        i ∉ tl.pending ∧ tl.merged.count i = 1 ∧
        tl.consumed = tl.merged.foldl (fun acc j => mergeConsumed acc (tc j)) []) := by
  intro tl htl
  obtain ⟨hp, hm, hc⟩ := Inv_reachable tc ls s h tl htl
  constructor
  · intro i hi
    exact ((hp i).mp hi).2
  · intro i hterm hlis
    refine ⟨?_, ?_, hc⟩
    · intro hi
      have := ((hp i).mp hi).2
      rw [this] at hterm
      simp [Status.isTerminal] at hterm
    · rw [hm i]
      simp [hlis, hterm]

/-- The listener configuration for the C4 witness: one tally listening to
every task. -/
def lsW : List (Nat → Bool) := [fun _ => true]

/-- The per-task terminal counters for the C4 witness. -/
def tcW : Nat → ConsumedMap := fun _ => [("outcome.hasStarted", 1)]

/-- The C4 witness state: task 0 started and then succeeded. -/
def sysW : Sys :=
  ⟨fun j => if j = 0 then .Succeed
            else if j = 0 then .Run else (Sys.init lsW).status j,
   ((Sys.init lsW).tallies.map (startTally 0)).map (finishTally tcW 0)⟩

theorem sysW_reachable : Reachable tcW lsW sysW := by
  refine Relation.ReflTransGen.tail (Relation.ReflTransGen.tail
    Relation.ReflTransGen.refl (Step.start (Sys.init lsW) 0 rfl)) ?_
  exact Step.succeed ⟨fun j => if j = 0 then .Run else (Sys.init lsW).status j,
    (Sys.init lsW).tallies.map (startTally 0)⟩ 0 (by simp)

/-- Closed witness for `pending_run_and_terminal_merged_once`, at the
reachable state where task 0 has started and succeeded under one listening
tally. -/
theorem pending_run_and_terminal_merged_once_witness :
    Reachable tcW lsW sysW ∧
      ∀ tl ∈ sysW.tallies,
        (∀ i ∈ tl.pending, sysW.status i = .Run) ∧
        (∀ i, (sysW.status i).isTerminal = true → tl.listens i = true →
          i ∉ tl.pending ∧ tl.merged.count i = 1 ∧
          tl.consumed = tl.merged.foldl (fun acc j => mergeConsumed acc (tcW j)) []) :=
  ⟨sysW_reachable,
    pending_run_and_terminal_merged_once tcW lsW sysW sysW_reachable⟩

end CodeInstruments
